import Mathlib

/-
Verification of the box CLI container tool (box/cli.py, box/ssh_mount.py)
against its natural-language specification.

The Python source is shallowly embedded: every function below is a direct
translation of the correspondingly named Python function.  Strings are
manipulated through List Char so that every operation is structural and
evaluates inside the kernel.  Interactive input, subprocess outcomes and the
SSHFS mount provider are passed in as explicit parameters; a Python exception
that can escape a translated function is modelled by an Option result.
-/

namespace Box

/-! ## Character-list string utilities -/

/-- Boolean test that the list s begins with the pattern p
(model of the Python str.startswith on the decomposed string). -/
def charsStartWith : List Char → List Char → Bool
  | _, [] => true
  | [], _ :: _ => false
  | c :: cs, p :: ps => c = p && charsStartWith cs ps

/-- Split a character list at every occurrence of the separator, keeping empty
segments, as the Python str.split(sep) does. -/
def splitChar (sep : Char) : List Char → List (List Char)
  | [] => [[]]
  | c :: rest =>
    let r := splitChar sep rest
    if c = sep then [] :: r
    else
      match r with
      | [] => [[c]]
      | g :: gs => (c :: g) :: gs

/-- Characters strictly before the last occurrence of the colon
(the first half of the Python rsplit with one split). -/
def beforeLastColon (l : List Char) : List Char :=
  (((l.reverse.dropWhile (fun c => c ≠ ':')).drop 1)).reverse

/-- Characters strictly after the last occurrence of the colon
(the second half of the Python rsplit with one split). -/
def afterLastColon (l : List Char) : List Char :=
  (l.reverse.takeWhile (fun c => c ≠ ':')).reverse

/-- Strip leading and trailing whitespace, the model of the Python str.strip
(restricted to the ASCII whitespace the tool ever meets). -/
def strTrim (s : String) : String :=
  String.mk (((s.toList.dropWhile Char.isWhitespace).reverse.dropWhile Char.isWhitespace).reverse)

/-- Lower-case every character, the model of the Python str.lower for the
ASCII command words and answers this tool compares. -/
def strToLower (s : String) : String :=
  String.mk (s.toList.map Char.toLower)

/-- Join a list of strings with a separator. -/
def joinWith (sep : String) : List String → String
  | [] => ""
  | [x] => x
  | x :: y :: xs => x ++ sep ++ joinWith sep (y :: xs)

/-! ## POSIX path model

The tool runs Path(...).expanduser().resolve() and Path(...).name.  We model a
POSIX filesystem without symbolic links: resolution prefixes the current
working directory and normalises dot and dot-dot components textually. -/

/-- Normalise path components: drop empty and single-dot entries, let a
dot-dot entry cancel the preceding component (a dot-dot above the root is
dropped, as the Python resolve does).  The accumulator is kept reversed. -/
def normComponentsAux : List (List Char) → List (List Char) → List (List Char)
  | acc, [] => acc.reverse
  | acc, c :: rest =>
    match c with
    | [] => normComponentsAux acc rest
    | ['.'] => normComponentsAux acc rest
    | ['.', '.'] => normComponentsAux (acc.drop 1) rest
    | comp => normComponentsAux (comp :: acc) rest

/-- Model of Path(p).resolve() without symbolic links: make the path absolute
against the given working directory and normalise it. -/
def resolvePath (cwd : String) (p : String) : String :=
  let full := if charsStartWith p.toList ['/'] then p else cwd ++ "/" ++ p
  let comps := normComponentsAux [] (splitChar '/' full.toList)
  "/" ++ joinWith "/" (comps.map String.mk)

/-- Model of the Python Path(p).name: the last path component after the parse
drops empty and single-dot components (dot-dot components are kept, and the
root has the empty name). -/
def pathName (p : String) : String :=
  let parts := (splitChar '/' p.toList).filter (fun c => !(c.isEmpty || c == ['.']))
  String.mk (parts.getLastD [])

/-- Model of Path(spec).expanduser(): replace a leading home shorthand by the
home directory; a tilde followed by a user name is left unchanged. -/
def expanduser (home : String) (spec : String) : String :=
  let l := spec.toList
  if l = ['~'] then home
  else if charsStartWith l ['~', '/'] then home ++ String.mk (l.drop 1)
  else spec

/-! ## Saved-mount merging (cli.py main, the named-image branch)

When a named image is used, the saved read-only and read-write mount lists are
combined with the mount flags of the current invocation.  An absent flag is
the Python None; argparse append never produces an empty list, but the Python
truthiness test treats None and the empty list alike, so the model carries an
Option (List String). -/

/-- Model of one arm of the merge in main: if the user supplied mounts
(a truthy value), prepend the saved ones, otherwise use the saved ones. -/
def merge_saved_mounts (saved : List String) (supplied : Option (List String)) : List String :=
  match supplied with
  | some l => if l.isEmpty then saved else saved ++ l
  | none => saved

/-- Both arms of the merge in main: the read-only lists and the read-write
lists are merged independently, by the same rule. -/
def merge_image_mounts (savedRo savedRw : List String)
    (ro rw : Option (List String)) : List String × List String :=
  (merge_saved_mounts savedRo ro, merge_saved_mounts savedRw rw)

/-! ## SSH URL classification and parsing (ssh_mount.py, SSHFSManager) -/

/-- Decision procedure for the sub-pattern of host and path: the whole list is
host, a colon, path, where host is nonempty and free of colon, slash and
at-sign, and path is nonempty and free of colon.  Splitting on the colon into
exactly two parts captures the single-colon requirement. -/
def hostPathMatch (l : List Char) : Bool :=
  match splitChar ':' l with
  | [host, path] =>
    !host.isEmpty && !path.isEmpty && !host.contains '/' && !host.contains '@'
  | _ => false

/-- Decision procedure equivalent to the Python regular expression used by
is_ssh_url.  The optional leading group is everything up to the first at-sign
(the group body excludes the at-sign, so only the first at-sign can end it);
the remainder must then be host, colon, path. -/
def regexSshMatch (l : List Char) : Bool :=
  hostPathMatch l ||
    (l.contains '@' &&
      !(l.takeWhile (fun c => c ≠ '@')).isEmpty &&
      hostPathMatch ((l.dropWhile (fun c => c ≠ '@')).drop 1))

/-- Translation of SSHFSManager.is_ssh_url: the regular-expression match,
and the spec neither starts with a slash nor is a Windows drive path
(a colon-backslash at index one). -/
def is_ssh_url (spec : String) : Bool :=
  let l := spec.toList
  regexSshMatch l &&
    !(charsStartWith l ['/']) &&
    !(decide (1 < l.length) && ((l.drop 1).take 2 == [':', '\\']))

/-- Translation of SSHFSManager.parse_ssh_url.  The Python splits on the last
colon into user-and-host and remote path, then, when the whole spec holds an
at-sign, splits the first part on its first at-sign; a missing colon, or an
at-sign that only occurs inside the remote path, makes the Python unpacking
raise, which the model reports as none. -/
def parse_ssh_url (spec : String) : Option (Option String × String × String) :=
  let l := spec.toList
  if !(l.contains ':') then none
  else
    let before := beforeLastColon l
    let after := afterLastColon l
    if l.contains '@' then
      if before.contains '@' then
        some (some (String.mk (before.takeWhile (fun c => c ≠ '@'))),
          String.mk ((before.dropWhile (fun c => c ≠ '@')).drop 1),
          String.mk after)
      else none
    else
      some (none, String.mk before, String.mk after)

/-! ## Volume specification parsing (cli.py, SpecParser and VolumeMapper) -/

/-- Translation of SpecParser.parse_volume_spec.  A spec holding a colon that
is neither absolute nor a Windows drive path is split at its first colon into
source and destination; otherwise the whole spec is the source and the
destination is the base name of the resolved source under /root.  The home
directory and the working directory parameterise the path model. -/
def parse_volume_spec (home cwd : String) (spec : String) (read_only : Bool) :
    String × String × String :=
  let l := spec.toList
  let options := if read_only then "ro" else "rw"
  if l.contains ':' && !(charsStartWith l ['/']) && !((l.drop 1).take 2 == [':', '\\']) then
    let srcRaw := String.mk (l.takeWhile (fun c => c ≠ ':'))
    let destRaw := String.mk ((l.dropWhile (fun c => c ≠ ':')).drop 1)
    let src := resolvePath cwd (expanduser home srcRaw)
    let dest :=
      if charsStartWith destRaw.toList ['/'] then destRaw else "/root/" ++ destRaw
    (src, dest, options)
  else
    let src := resolvePath cwd (expanduser home spec)
    (src, "/root/" ++ pathName src, options)

/-- Translation of VolumeMapper._process_local_mount: format the parsed spec
as a -v argument pair and report the destination. -/
def process_local_mount (home cwd : String) (spec : String) (read_only : Bool) :
    List String × String :=
  let r := parse_volume_spec home cwd spec read_only
  (["-v", r.1 ++ ":" ++ r.2.1 ++ ":" ++ r.2.2], r.2.1)

/-- Translation of VolumeMapper.prepare_ssh_mount.  When the spec holds more
than one colon the part after the last colon is stripped before the provider
is asked; the SSHFS provider (create_ssh_mount) is the external collaborator
env, answering the local mount path or none on failure. -/
def prepare_ssh_mount (env : String → Bool → Option String)
    (ssh_spec : String) (read_only : Bool) : Option String :=
  let l := ssh_spec.toList
  let ssh_part := if 1 < l.count ':' then String.mk (beforeLastColon l) else ssh_spec
  env ssh_part read_only

/-- Translation of VolumeMapper._process_ssh_mount.  A provider failure yields
no volume arguments and no destination; otherwise the destination is the part
after the last colon when the spec has more than one colon, else the base name
of the parsed remote path under /root; a relative destination is forced under
/root.  The none result models the unpacking error that parse_ssh_url can
raise. -/
def process_ssh_mount (env : String → Bool → Option String)
    (spec : String) (read_only : Bool) : Option (List String × Option String) :=
  match prepare_ssh_mount env spec read_only with
  | none => some ([], none)
  | some localPath =>
    let l := spec.toList
    let destRaw : Option String :=
      if l.contains ':' && 1 < l.count ':' then
        some (String.mk (afterLastColon l))
      else
        match parse_ssh_url spec with
        | some (_, _, remotePath) => some ("/root/" ++ pathName remotePath)
        | none => none
    match destRaw with
    | none => none
    | some d0 =>
      let dest := if charsStartWith d0.toList ['/'] then d0 else "/root/" ++ d0
      let opts := if read_only then "ro" else "rw"
      some (["-v", localPath ++ ":" ++ dest ++ ":" ++ opts], some dest)

/-- Translation of VolumeMapper._process_mount_spec: dispatch on the SSH
classification. -/
def process_mount_spec (env : String → Bool → Option String) (home cwd : String)
    (spec : String) (read_only : Bool) : Option (List String × Option String) :=
  if is_ssh_url spec then process_ssh_mount env spec read_only
  else
    let r := process_local_mount home cwd spec read_only
    some (r.1, some r.2)

/-- The loop body of VolumeMapper.get_volume_args over one mount list,
threading the accumulated volume arguments and the first mounted destination
exactly as the Python assignments do. -/
def mountLoop (env : String → Bool → Option String) (home cwd : String)
    (read_only : Bool) :
    List String → List String → Option String → Option (List String × Option String)
  | [], acc, fmd => some (acc, fmd)
  | spec :: rest, acc, fmd => do
    let r ← process_mount_spec env home cwd spec read_only
    mountLoop env home cwd read_only rest (acc ++ r.1)
      (match fmd with | none => r.2 | some d => some d)

/-- Translation of VolumeMapper.get_volume_args: process the read-only mounts
first, then the read-write mounts, accumulating the volume arguments and the
first mounted destination. -/
def get_volume_args (env : String → Bool → Option String) (home cwd : String)
    (read_only read_write : List String) : Option (List String × Option String) := do
  let r1 ← mountLoop env home cwd true read_only [] none
  mountLoop env home cwd false read_write r1.1 r1.2

/-! ## Configuration store (cli.py, ConfigManager) -/

/-- The persisted record for one named image, the fields written by
ConfigManager.save_image_config. -/
structure ImageConfig where
  command : List String
  node : Bool
  py : Bool
  image_version : Option String
  tmux : Bool
  port : List String
  read_only : List String
  read_write : List String
  no_network : Bool
  internal_network : Bool
  http_proxy : Option String
deriving DecidableEq, Repr

/-- The image mapping of the configuration file, an insertion-ordered
association list like the Python dict. -/
abbrev Images := List (String × ImageConfig)

/-- Dict assignment: overwrite the binding in place when the name is present,
otherwise append it. -/
def setImage (images : Images) (name : String) (cfg : ImageConfig) : Images :=
  if (List.lookup name images).isSome then
    images.map (fun p => if p.1 = name then (name, cfg) else p)
  else images ++ [(name, cfg)]

/-- The argparse namespace fields that save_image_config reads.  The mount and
port flags are Option lists because argparse append leaves them None when the
flag was never given. -/
structure BoxArgs where
  command : List String
  node : Bool
  py : Bool
  image_version : Option String
  tmux : Bool
  port : Option (List String)
  read_only : Option (List String)
  read_write : Option (List String)
  no_network : Bool
  internal_network : Bool
  http_proxy : Option String
  name : Option String
deriving DecidableEq, Repr

/-- The config_entry dictionary built inside save_image_config: the falsy
port and mount values (None or the empty list) are saved as empty lists. -/
def config_entry (a : BoxArgs) : ImageConfig :=
  { command := a.command
    node := a.node
    py := a.py
    image_version := a.image_version
    tmux := a.tmux
    port := a.port.getD []
    read_only := a.read_only.getD []
    read_write := a.read_write.getD []
    no_network := a.no_network
    internal_network := a.internal_network
    http_proxy := a.http_proxy }

/-- The affirmative test of the overwrite prompt: the stripped, lower-cased
response must be y or yes. -/
def confirmAffirmative (response : String) : Bool :=
  let r := strToLower (strTrim response)
  r == "y" || r == "yes"

/-- Translation of ConfigManager.save_image_config.  The interactive answer is
the response parameter.  When the name exists and force is not set, a
non-affirmative answer cancels: the mapping is returned unchanged together
with false, the non-error cancelled outcome. -/
def save_image_config (images : Images) (name : String) (args : BoxArgs)
    (force : Bool) (response : String) : Images × Bool :=
  if !force && (List.lookup name images).isSome then
    if !confirmAffirmative response then (images, false)
    else (setImage images name (config_entry args), true)
  else (setImage images name (config_entry args), true)

/-- The exception classes that matter to the error handling of
ConfigManager._load_config.  A file whose raw bytes are not valid UTF-8 makes
the read inside json.load raise UnicodeDecodeError, which subclasses
ValueError and is neither a json.JSONDecodeError nor an IOError. -/
inductive PyExc where
  | jsonDecodeError
  | ioError
  | unicodeDecodeError

/-- Whether the except clause of _load_config catches an exception: the clause
names exactly json.JSONDecodeError and IOError. -/
def caughtByLoadExcept : PyExc → Bool
  | PyExc.jsonDecodeError => true
  | PyExc.ioError => true
  | PyExc.unicodeDecodeError => false

/-- What the bytes of a present configuration file can hold: bytes that do not
decode as UTF-8, text that decodes but is rejected by the JSON parser, a read
that fails with an input-output error, or text that parses to an image
mapping. -/
inductive FileContents where
  | undecodableBytes
  | invalidJson
  | readFailure
  | validJson (images : Images)

/-- The on-disk states the configuration file can be in when
ConfigManager._load_config runs. -/
inductive ConfigFileState where
  | missing
  | present (contents : FileContents)

/-- The body of the try in _load_config: open the file and run json.load on
it, reporting the exception class on failure. -/
def openAndJsonLoad : FileContents → Except PyExc Images
  | FileContents.undecodableBytes => Except.error PyExc.unicodeDecodeError
  | FileContents.invalidJson => Except.error PyExc.jsonDecodeError
  | FileContents.readFailure => Except.error PyExc.ioError
  | FileContents.validJson images => Except.ok images

/-- Translation of ConfigManager._load_config: a missing file yields the
default empty image mapping without entering the try; for a present file the
try body runs, a caught exception yields the empty mapping, and an uncaught
exception propagates to the caller as an error result. -/
def load_config : ConfigFileState → Except PyExc Images
  | ConfigFileState.missing => Except.ok []
  | ConfigFileState.present contents =>
    match openAndJsonLoad contents with
    | Except.ok images => Except.ok images
    | Except.error e =>
      if caughtByLoadExcept e then Except.ok [] else Except.error e

/-! ## Network policy (cli.py, NetworkManager and the merge in main) -/

/-- The network-relevant argparse fields at invocation time. -/
structure NetworkArgs where
  no_network : Bool
  internal_network : Bool
  http_proxy : Option String
deriving DecidableEq, Repr

/-- Python truthiness of an optional string: None and the empty string are
falsy. -/
def optTruthy : Option String → Bool
  | none => false
  | some s => !(s == "")

/-- Translation of the saved-network merge in main: each field falls back to
the saved value exactly when the invocation value is falsy. -/
def apply_saved_network (args : NetworkArgs) (config : ImageConfig) : NetworkArgs :=
  { no_network := if args.no_network then args.no_network else config.no_network
    internal_network :=
      if args.internal_network then args.internal_network else config.internal_network
    http_proxy := if optTruthy args.http_proxy then args.http_proxy else config.http_proxy }

/-- Translation of NetworkManager.get_network_args: no-network yields the none
network, otherwise internal-network yields the fixed internal network name,
otherwise no network arguments; a truthy proxy yields the four proxy
environment assignments.  The side effect that creates the internal network is
not modelled. -/
def get_network_args (args : NetworkArgs) : List String × List (String × String) :=
  let network_args :=
    if args.no_network then ["--network", "none"]
    else if args.internal_network then ["--network", "box-internal"]
    else []
  let env_vars :=
    match args.http_proxy with
    | some p => if p == "" then [] else
        [("HTTP_PROXY", p), ("HTTPS_PROXY", p), ("http_proxy", p), ("https_proxy", p)]
    | none => []
  (network_args, env_vars)

/-! ## Image resolution (cli.py, ImageBuilder)

The container runtime is the external collaborator: the outcome of each
subprocess call (inspect, pull, build, run, commit) is a parameter, and the
calls a code path performs are recorded as a trace. -/

/-- The Node ecosystem command keywords of
ImageBuilder.detect_container_type_from_command. -/
def node_commands : List String :=
  ["npm", "npx", "yarn", "pnpm", "node", "nodejs",
   "webpack", "vite", "next", "nuxt", "gatsby",
   "react-scripts", "vue-cli-service", "ng", "angular",
   "tsc", "ts-node", "eslint", "prettier", "jest"]

/-- The Python ecosystem command keywords of
ImageBuilder.detect_container_type_from_command. -/
def python_commands : List String :=
  ["python", "python3", "pip", "pip3", "pipenv", "poetry",
   "pytest", "black", "flake8", "mypy", "pylint",
   "django-admin", "flask", "gunicorn", "uvicorn",
   "jupyter", "ipython", "conda", "mamba"]

/-- What the marker-file probe of the working directory reports: a Node
project marker found (checked first, so it wins when both kinds are present),
else a Python project marker found, else neither (which also covers the
swallowed filesystem errors). -/
inductive ProjKind where
  | nodeProject
  | pythonProject
  | plainDir
deriving DecidableEq, Repr

/-- Translation of ImageBuilder.detect_container_type_from_command: match the
lower-cased first command token against the keyword sets; for a generic shell,
consult the working-directory markers; default to alpine. -/
def detect_container_type_from_command (cwd : ProjKind) (command : List String) : String :=
  match command with
  | [] => "alpine"
  | c :: _ =>
    let fc := strToLower c
    if node_commands.contains fc then "node"
    else if python_commands.contains fc then "python"
    else if ["bash", "sh", "zsh"].contains fc then
      match cwd with
      | ProjKind.nodeProject => "node"
      | ProjKind.pythonProject => "python"
      | ProjKind.plainDir => "alpine"
    else "alpine"

/-- Python or-default over an optional version string: None and the empty
string both fall back. -/
def versionOr (v : Option String) (dflt : String) : String :=
  match v with
  | some s => if s == "" then dflt else s
  | none => dflt

/-- Translation of ImageBuilder.get_base_image over the argparse fields it
reads (the Args adapter exposes the same fields). -/
def get_base_image (cwd : ProjKind) (args : BoxArgs) : String :=
  if args.node then "node:" ++ versionOr args.image_version "lts"
  else if args.py then "python:" ++ versionOr args.image_version "latest"
  else
    let detected := detect_container_type_from_command cwd args.command
    if detected = "node" then "node:" ++ versionOr args.image_version "lts"
    else if detected = "python" then "python:" ++ versionOr args.image_version "latest"
    else "alpine:latest"

/-- Tag sanitisation of ImageBuilder.get_box_image_name: colons and slashes
become dashes. -/
def sanitizeTag (s : String) : String :=
  String.mk (s.toList.map (fun c => if c = ':' || c = '/' then '-' else c))

/-- Translation of ImageBuilder.get_box_image_name: a truthy custom name gives
the named form, else the sanitised base tag, each with the tmux suffix. -/
def get_box_image_name (base_image : String) (include_tmux : Bool)
    (custom_name : Option String) : String :=
  let suffix := if include_tmux then "-tmux" else ""
  match custom_name with
  | some n => if n == "" then "box-" ++ sanitizeTag base_image ++ suffix
      else "box-named-" ++ n ++ suffix
  | none => "box-" ++ sanitizeTag base_image ++ suffix

/-- The local image store of the container runtime: which image names exist. -/
structure RuntimeState where
  present : String → Bool

/-- The runtime calls ImageBuilder.get_or_build_image can make. -/
inductive ImgOp where
  | inspectImage (name : String)
  | pullImage (tag : String)
  | buildImage (name : String)
deriving DecidableEq, Repr

/-- Translation of ImageBuilder.get_or_build_image.  The buildOk parameter is
the outcome the runtime would give the build call (a failed pull only warns
and is not modelled as a separate outcome).  Returns the resolved image name,
the image store after the call, and the trace of runtime calls: an existing
box image returns at once after the inspect call; otherwise pull and build are
attempted, and a failed build falls back to the base tag. -/
def get_or_build_image (buildOk : Bool) (cwd : ProjKind) (st : RuntimeState)
    (args : BoxArgs) : String × RuntimeState × List ImgOp :=
  let base_image := get_base_image cwd args
  let name := get_box_image_name base_image args.tmux args.name
  if st.present name then (name, st, [ImgOp.inspectImage name])
  else
    let ops := [ImgOp.inspectImage name, ImgOp.pullImage base_image, ImgOp.buildImage name]
    if buildOk then
      (name, RuntimeState.mk (fun s => if s = name then true else st.present s), ops)
    else (base_image, st, ops)

/-- The runtime steps ImageBuilder.build_named_image_with_command can take
after the base box image is in place. -/
inductive BuildStep where
  | pullBase
  | buildBase
  | runSetup
  | commitContainer
  | removeContainer
deriving DecidableEq, Repr

/-- The collaborator outcomes that drive
ImageBuilder.build_named_image_with_command: whether the base box image
already exists, whether its build would succeed, and the exit codes of the
setup-command run and of the commit. -/
structure BuildOutcomes where
  baseImageExists : Bool
  baseBuildSucceeds : Bool
  runExitCode : Int
  commitExitCode : Int
deriving DecidableEq, Repr

/-- Translation of ImageBuilder.build_named_image_with_command, returning the
trace of runtime steps and the created image name (none signals failure).
When the base box image is missing it is pulled and built, and a failed base
build aborts; then the setup command runs in a fresh container: a non-zero
exit removes the container and aborts before any commit; otherwise the
container is committed and then removed whatever the commit outcome, and a
failed commit still reports failure. -/
def build_named_image_with_command (oc : BuildOutcomes) (targetImage : String) :
    List BuildStep × Option String :=
  let pre : List BuildStep × Bool :=
    if oc.baseImageExists then ([], true)
    else ([BuildStep.pullBase, BuildStep.buildBase], oc.baseBuildSucceeds)
  if !pre.2 then (pre.1, none)
  else
    let steps := pre.1 ++ [BuildStep.runSetup]
    if oc.runExitCode ≠ 0 then (steps ++ [BuildStep.removeContainer], none)
    else
      let steps2 := steps ++ [BuildStep.commitContainer, BuildStep.removeContainer]
      if oc.commitExitCode ≠ 0 then (steps2, none)
      else (steps2, some targetImage)

/-! ## Declarative view of mount processing, used to state the properties -/

/-- The volume arguments one mount spec contributes (empty for a failed
remote mount; the default is never reached when the run does not raise). -/
def mountArgsOf (env : String → Bool → Option String) (home cwd : String)
    (read_only : Bool) (spec : String) : List String :=
  ((process_mount_spec env home cwd spec read_only).getD ([], none)).1

/-- The destination one mount spec reports (none for a failed remote
mount; the default is never reached when the run does not raise). -/
def mountDestOf (env : String → Bool → Option String) (home cwd : String)
    (read_only : Bool) (spec : String) : Option String :=
  ((process_mount_spec env home cwd spec read_only).getD ([], none)).2

/-- The first present entry of a list of optional destinations. -/
def firstSome : List (Option String) → Option String
  | [] => none
  | some d :: _ => some d
  | none :: rest => firstSome rest

/-- Keep the first option when present, else take the second. -/
def orFirst (a b : Option String) : Option String :=
  match a with
  | some d => some d
  | none => b

/-! ## Theorems -/

/-- Helper: the first present entry of a concatenation comes from the first
list when it has one, else from the second. -/
theorem firstSome_append (a b : List (Option String)) :
    firstSome (a ++ b) = orFirst (firstSome a) (firstSome b) := by
  induction a with
  | nil => simp [firstSome, orFirst]
  | cons x xs ih =>
    cases x with
    | some d => simp [firstSome, orFirst]
    | none => simpa [firstSome, orFirst] using ih

/-- Helper: a successful run of the volume loop appends the contribution of
every spec to the accumulator, and fills the first destination only when the
accumulator has none. -/
theorem mountLoop_spec (env : String → Bool → Option String) (home cwd : String)
    (ro : Bool) (specs : List String) (acc : List String) (fmd : Option String)
    (res : List String × Option String)
    (h : mountLoop env home cwd ro specs acc fmd = some res) :
    res.1 = acc ++ (specs.map (mountArgsOf env home cwd ro)).flatten
    ∧ res.2 = orFirst fmd (firstSome (specs.map (mountDestOf env home cwd ro))) := by
  induction specs generalizing acc fmd with
  | nil =>
    simp [mountLoop] at h
    cases fmd with
    | none => simp [← h, firstSome, orFirst]
    | some d => simp [← h, orFirst]
  | cons s rest ih =>
    rw [mountLoop] at h
    cases hproc : process_mount_spec env home cwd s ro with
    | none =>
      rw [hproc] at h
      simp only [Option.bind_eq_bind, Option.none_bind] at h
      exact absurd h (by simp)
    | some r =>
      rw [hproc] at h
      simp only [Option.bind_eq_bind, Option.some_bind] at h
      cases fmd with
      | some d =>
        have hr := ih (acc ++ r.1) (some d) h
        refine ⟨?_, ?_⟩
        · rw [hr.1]
          simp [mountArgsOf, hproc, List.append_assoc]
        · rw [hr.2]
          simp [orFirst]
      | none =>
        have hr := ih (acc ++ r.1) r.2 h
        refine ⟨?_, ?_⟩
        · rw [hr.1]
          simp [mountArgsOf, hproc, List.append_assoc]
        · rw [hr.2]
          cases hr2 : r.2 with
          | some d => simp [firstSome, orFirst, mountDestOf, hproc, hr2]
          | none => simp [firstSome, orFirst, mountDestOf, hproc, hr2]

/-- C1: for every named-image run, the effective read-write mount list is
exactly the saved read-write mounts in their original order followed by the
newly supplied read-write mounts in their given order, and likewise for the
read-only list.  An absent flag contributes the empty list. -/
theorem c1_mount_merge_law (savedRo savedRw : List String)
    (ro rw : Option (List String)) :
    merge_image_mounts savedRo savedRw ro rw =
      (savedRo ++ ro.getD [], savedRw ++ rw.getD []) := by
  unfold merge_image_mounts merge_saved_mounts
  cases ro with
  | none => cases rw with
    | none => simp
    | some l =>
      cases l with
      | nil => simp
      | cons a as => simp
  | some k =>
    cases rw with
    | none => cases k with
      | nil => simp
      | cons a as => simp
    | some l =>
      cases k with
      | nil => cases l with
        | nil => simp
        | cons b bs => simp
      | cons a as => cases l with
        | nil => simp
        | cons b bs => simp

/-- C2, evaluated at the failing input: the spec admin@server:/logs:/logs is
of the documented remote form with an explicit container destination (it
appears verbatim in the CLI help of the program), yet is_ssh_url rejects it,
because the regular expression allows no colon inside the remote path; the
spec is therefore processed as a local mount and the destination-override
branch of the SSH mount processing is unreachable from the classifier. -/
theorem c2_explicit_dest_ssh_spec_misclassified :
    is_ssh_url "admin@server:/logs:/logs" = false := by decide

/-- C3, counterexample: with a saved configuration that sets no-network, an
explicitly supplied internal-network override does not determine the
effective network arguments; the saved no-network wins. -/
theorem c3_counterexample_saved_nonet_beats_internal_override :
    (get_network_args (apply_saved_network
        (⟨false, true, none⟩ : NetworkArgs)
        (⟨[], false, false, none, false, [], [], [], true, false, none⟩ : ImageConfig))).1
      = ["--network", "none"]
    ∧ (get_network_args (⟨false, true, none⟩ : NetworkArgs)).1
      = ["--network", "box-internal"] := by
  decide

/-- C3, amended: an explicitly supplied no-network mode always determines the
network arguments; an explicitly supplied internal-network mode determines
them unless the saved configuration sets no-network, in which case no-network
takes precedence; and with no mode supplied at invocation the saved modes are
used. -/
theorem c3_network_override_precedence (args : NetworkArgs) (config : ImageConfig) :
    (args.no_network = true →
      (get_network_args (apply_saved_network args config)).1 = ["--network", "none"])
    ∧ (args.no_network = false → args.internal_network = true → config.no_network = false →
      (get_network_args (apply_saved_network args config)).1 = ["--network", "box-internal"])
    ∧ (args.no_network = false → args.internal_network = false →
      (get_network_args (apply_saved_network args config)).1 =
        (get_network_args
          (⟨config.no_network, config.internal_network, config.http_proxy⟩ : NetworkArgs)).1) := by
  refine ⟨fun h1 => ?_, fun h1 h2 h3 => ?_, fun h1 h2 => ?_⟩
  · simp [apply_saved_network, get_network_args, h1]
  · simp [apply_saved_network, get_network_args, h1, h2, h3]
  · simp [apply_saved_network, get_network_args, h1, h2]

/-- C3, witness: an explicitly supplied no-network override wins over a saved
internal-network configuration. -/
theorem c3_witness :
    (get_network_args (apply_saved_network
        (⟨true, false, none⟩ : NetworkArgs)
        (⟨[], false, false, none, false, [], [], [], false, true, none⟩ : ImageConfig))).1
      = ["--network", "none"] :=
  (c3_network_override_precedence ⟨true, false, none⟩
    ⟨[], false, false, none, false, [], [], [], false, true, none⟩).1 rfl

/-- C4: whenever the setup phase of a named-image build is reached (the base
box image exists or its build succeeds), a non-zero setup exit commits
nothing and reports failure, and the build container is removed on every
outcome of the setup phase. -/
theorem c4_setup_failure_aborts_and_container_removed (oc : BuildOutcomes)
    (target : String)
    (hbase : oc.baseImageExists = true ∨ oc.baseBuildSucceeds = true) :
    (oc.runExitCode ≠ 0 →
      BuildStep.commitContainer ∉ (build_named_image_with_command oc target).1
      ∧ (build_named_image_with_command oc target).2 = none)
    ∧ BuildStep.removeContainer ∈ (build_named_image_with_command oc target).1 := by
  rcases oc with ⟨be, bb, re, ce⟩
  by_cases hre : re = 0
  · subst hre
    by_cases hce : ce = 0
    · subst hce
      cases be <;> cases bb <;> simp_all [build_named_image_with_command]
    · cases be <;> cases bb <;> simp_all [build_named_image_with_command]
  · cases be <;> cases bb <;> simp_all [build_named_image_with_command]

/-- C4, witness: with the base image present and the setup command exiting
with code one, no commit appears in the trace, the result is failure, and the
container is removed. -/
theorem c4_witness :
    (BuildStep.commitContainer
        ∉ (build_named_image_with_command ⟨true, false, 1, 0⟩ "img").1
      ∧ (build_named_image_with_command ⟨true, false, 1, 0⟩ "img").2 = none)
    ∧ BuildStep.removeContainer
        ∈ (build_named_image_with_command ⟨true, false, 1, 0⟩ "img").1 :=
  ⟨(c4_setup_failure_aborts_and_container_removed ⟨true, false, 1, 0⟩ "img"
      (Or.inl rfl)).1 (by decide),
    (c4_setup_failure_aborts_and_container_removed ⟨true, false, 1, 0⟩ "img"
      (Or.inl rfl)).2⟩

/-- C5, counterexample: when the derived image does not exist and its build
fails, a second resolution with no external state change still performs a
pull and a build, refuting that the second call only checks existence. -/
theorem c5_counterexample_failed_build_repeats_pull_and_build :
    ImgOp.pullImage "alpine:latest"
        ∈ (get_or_build_image false ProjKind.plainDir
            (get_or_build_image false ProjKind.plainDir ⟨fun _ => false⟩
              ⟨[], false, false, none, false, none, none, none, false, false, none, none⟩).2.1
            ⟨[], false, false, none, false, none, none, none, false, false, none, none⟩).2.2
    ∧ ImgOp.buildImage "box-alpine-latest"
        ∈ (get_or_build_image false ProjKind.plainDir
            (get_or_build_image false ProjKind.plainDir ⟨fun _ => false⟩
              ⟨[], false, false, none, false, none, none, none, false, false, none, none⟩).2.1
            ⟨[], false, false, none, false, none, none, none, false, false, none, none⟩).2.2 := by
  decide

/-- C5, amended: resolution returns the same derived image name on both of
two successive calls, and the second call performs only an existence check,
whenever the derived image is obtainable (it already exists, or the build
succeeds on the first call); when the first build fails, both calls return
the base tag but the pull and build are re-attempted. -/
theorem c5_second_resolve_only_inspects (buildOk : Bool) (cwd : ProjKind)
    (st : RuntimeState) (args : BoxArgs)
    (h : st.present (get_box_image_name (get_base_image cwd args) args.tmux args.name) = true
        ∨ buildOk = true) :
    (get_or_build_image buildOk cwd (get_or_build_image buildOk cwd st args).2.1 args).1
      = (get_or_build_image buildOk cwd st args).1
    ∧ (get_or_build_image buildOk cwd (get_or_build_image buildOk cwd st args).2.1 args).2.2
      = [ImgOp.inspectImage
          (get_box_image_name (get_base_image cwd args) args.tmux args.name)] := by
  by_cases hp :
      st.present (get_box_image_name (get_base_image cwd args) args.tmux args.name) = true
  · simp [get_or_build_image, hp]
  · have hb : buildOk = true := h.resolve_left hp
    subst hb
    simp [get_or_build_image, hp]

/-- C5, witness: starting from an empty image store with a succeeding build,
the two successive resolutions agree and the second only inspects. -/
theorem c5_witness :
    (get_or_build_image true ProjKind.plainDir
        (get_or_build_image true ProjKind.plainDir ⟨fun _ => false⟩
          ⟨[], false, false, none, false, none, none, none, false, false, none, none⟩).2.1
        ⟨[], false, false, none, false, none, none, none, false, false, none, none⟩).1
      = (get_or_build_image true ProjKind.plainDir ⟨fun _ => false⟩
          ⟨[], false, false, none, false, none, none, none, false, false, none, none⟩).1
    ∧ (get_or_build_image true ProjKind.plainDir
        (get_or_build_image true ProjKind.plainDir ⟨fun _ => false⟩
          ⟨[], false, false, none, false, none, none, none, false, false, none, none⟩).2.1
        ⟨[], false, false, none, false, none, none, none, false, false, none, none⟩).2.2
      = [ImgOp.inspectImage
          (get_box_image_name
            (get_base_image ProjKind.plainDir
              ⟨[], false, false, none, false, none, none, none, false, false, none, none⟩)
            (⟨[], false, false, none, false, none, none, none, false, false, none,
              none⟩ : BoxArgs).tmux
            (⟨[], false, false, none, false, none, none, none, false, false, none,
              none⟩ : BoxArgs).name)] :=
  c5_second_resolve_only_inspects true ProjKind.plainDir ⟨fun _ => false⟩
    ⟨[], false, false, none, false, none, none, none, false, false, none, none⟩
    (Or.inr rfl)

/-- C6: for an anonymous resolution (no custom name), when the derived image
does not exist locally and its build fails, resolution returns the base image
tag rather than failing. -/
theorem c6_anonymous_build_failure_falls_back_to_base (cwd : ProjKind)
    (st : RuntimeState) (args : BoxArgs)
    (_hname : args.name = none)
    (hmissing : st.present
      (get_box_image_name (get_base_image cwd args) args.tmux args.name) = false) :
    (get_or_build_image false cwd st args).1 = get_base_image cwd args := by
  simp [get_or_build_image, hmissing]

/-- C6, witness: with an empty image store and a failing build, the default
anonymous spec resolves to the alpine base tag. -/
theorem c6_witness :
    (get_or_build_image false ProjKind.plainDir ⟨fun _ => false⟩
        ⟨[], false, false, none, false, none, none, none, false, false, none, none⟩).1
      = get_base_image ProjKind.plainDir
          ⟨[], false, false, none, false, none, none, none, false, false, none, none⟩ :=
  c6_anonymous_build_failure_falls_back_to_base ProjKind.plainDir ⟨fun _ => false⟩
    ⟨[], false, false, none, false, none, none, none, false, false, none, none⟩ rfl rfl

/-- C7, counterexample: a local mount spec that contains a colon but starts
with a slash is not split at the colon; the whole spec becomes the source and
the destination is the base name of that literal path under /root. -/
theorem c7_counterexample_absolute_source_with_colon :
    parse_volume_spec "/home/u" "/cwd" "/data:/mnt" false ≠ ("/data", "/mnt", "rw")
    ∧ parse_volume_spec "/home/u" "/cwd" "/data:/mnt" false
      = ("/data:/mnt", "/root/mnt", "rw") := by
  decide

/-- C7, amended: a local spec containing a colon is split at its first colon
into source and destination only when it is neither an absolute path nor a
Windows drive path (destination forced under /root when relative); any other
local spec, including a colon-bearing absolute one, is taken whole as the
source with destination the base name of the resolved source under /root. -/
theorem c7_local_volume_spec_parse (home cwd spec : String) (ro : Bool) :
    (spec.toList.contains ':' = true →
      charsStartWith spec.toList ['/'] = false →
      ((spec.toList.drop 1).take 2 == [':', '\\']) = false →
      parse_volume_spec home cwd spec ro =
        (resolvePath cwd (expanduser home
            (String.mk (spec.toList.takeWhile (fun c => c ≠ ':')))),
          (if charsStartWith
              (String.mk ((spec.toList.dropWhile (fun c => c ≠ ':')).drop 1)).toList ['/']
            then String.mk ((spec.toList.dropWhile (fun c => c ≠ ':')).drop 1)
            else "/root/" ++ String.mk ((spec.toList.dropWhile (fun c => c ≠ ':')).drop 1)),
          if ro then "ro" else "rw"))
    ∧ ((spec.toList.contains ':' = false
        ∨ charsStartWith spec.toList ['/'] = true
        ∨ ((spec.toList.drop 1).take 2 == [':', '\\']) = true) →
      parse_volume_spec home cwd spec ro =
        (resolvePath cwd (expanduser home spec),
          "/root/" ++ pathName (resolvePath cwd (expanduser home spec)),
          if ro then "ro" else "rw")) := by
  constructor
  · intro h1 h2 h3
    have hguard : (spec.toList.contains ':' && !charsStartWith spec.toList ['/']
        && !((spec.toList.drop 1).take 2 == [':', '\\'])) = true := by
      rw [h1, h2, h3]
      rfl
    simp only [parse_volume_spec]
    rw [hguard]
    simp
  · intro h
    have hguard : (spec.toList.contains ':' && !charsStartWith spec.toList ['/']
        && !((spec.toList.drop 1).take 2 == [':', '\\'])) = false := by
      rcases h with h | h | h <;> rw [h] <;> simp
    simp only [parse_volume_spec]
    rw [hguard]
    simp

/-- C7, witness: a relative colon spec is split at the colon, and a plain
absolute spec maps to its base name under /root. -/
theorem c7_witness :
    parse_volume_spec "/home/u" "/cwd" "data:x" false = ("/cwd/data", "/root/x", "rw")
    ∧ parse_volume_spec "/home/u" "/cwd" "/data" true = ("/data", "/root/data", "ro") := by
  constructor
  · have h := (c7_local_volume_spec_parse "/home/u" "/cwd" "data:x" false).1
      (by decide) (by decide) (by decide)
    rw [h]; decide
  · have h := (c7_local_volume_spec_parse "/home/u" "/cwd" "/data" true).2
      (Or.inr (Or.inl (by decide)))
    rw [h]; decide

/-- C8, counterexample: the response of one space, y, one space is not the
case-insensitive y or yes, yet the stripping in the code accepts it and the
stored configuration is overwritten. -/
theorem c8_counterexample_padded_affirmative_overwrites :
    strToLower " y " ≠ "y" ∧ strToLower " y " ≠ "yes"
    ∧ List.lookup "app"
        (save_image_config
          [("app", ⟨["npm", "start"], true, false, none, false, [], [], [],
            false, false, none⟩)]
          "app"
          ⟨["other"], true, false, none, false, none, none, none, false, false, none, none⟩
          false " y ").1
      ≠ some ⟨["npm", "start"], true, false, none, false, [], [], [],
          false, false, none⟩ := by
  decide

/-- C8, amended: for an already-saved name, a save without force and with any
response whose stripped lower-cased form is neither y nor yes leaves the
stored mapping unchanged (a subsequent get returns the previously saved
configuration) and reports the non-error cancelled outcome. -/
theorem c8_negative_confirmation_preserves_saved_config
    (images : Images) (name : String) (args : BoxArgs) (response : String)
    (cfg : ImageConfig)
    (hlook : List.lookup name images = some cfg)
    (hresp : confirmAffirmative response = false) :
    save_image_config images name args false response = (images, false)
    ∧ List.lookup name (save_image_config images name args false response).1 = some cfg := by
  have hs : (List.lookup name images).isSome = true := by rw [hlook]; rfl
  constructor
  · simp [save_image_config, hs, hresp]
  · simp [save_image_config, hs, hresp, hlook]

/-- C8, witness: a plain negative response leaves a concrete saved
configuration in place and reports cancellation. -/
theorem c8_witness :
    save_image_config
        [("app", ⟨["npm", "start"], true, false, none, false, [], [], [],
          false, false, none⟩)]
        "app"
        ⟨["other"], true, false, none, false, none, none, none, false, false, none, none⟩
        false "n"
      = ([("app", ⟨["npm", "start"], true, false, none, false, [], [], [],
          false, false, none⟩)], false)
    ∧ List.lookup "app"
        (save_image_config
          [("app", ⟨["npm", "start"], true, false, none, false, [], [], [],
            false, false, none⟩)]
          "app"
          ⟨["other"], true, false, none, false, none, none, none, false, false, none, none⟩
          false "n").1
      = some ⟨["npm", "start"], true, false, none, false, [], [], [],
          false, false, none⟩ :=
  c8_negative_confirmation_preserves_saved_config _ "app" _ "n" _ (by decide) (by decide)

/-- C9, evaluated at the failing input: a missing file, a file whose decoded
text fails to parse as JSON, and a file whose read fails with an input-output
error all yield the empty image mapping, but a present file whose bytes do
not decode as UTF-8 makes the load raise UnicodeDecodeError, because the
except clause catches only the JSON decode error and the input-output error;
the claim that the load never raises fails on that file state. -/
theorem c9_undecodable_config_file_raises :
    load_config ConfigFileState.missing = Except.ok []
    ∧ load_config (ConfigFileState.present FileContents.invalidJson) = Except.ok []
    ∧ load_config (ConfigFileState.present FileContents.readFailure) = Except.ok []
    ∧ load_config (ConfigFileState.present FileContents.undecodableBytes)
      = Except.error PyExc.unicodeDecodeError :=
  ⟨rfl, rfl, rfl, rfl⟩

/-- C10: a run of the volume-argument builder that raises no exception
produces exactly the concatenation of the per-spec contributions, read-only
list first, and the first present destination in that order; a remote spec
whose mount provider fails contributes no volume argument and no
destination, so it is skipped when the working directory is chosen. -/
theorem c10_failed_remote_mount_skipped (env : String → Bool → Option String)
    (home cwd : String) (ro_specs rw_specs : List String)
    (res : List String × Option String)
    (h : get_volume_args env home cwd ro_specs rw_specs = some res) :
    res.1 = (ro_specs.map (mountArgsOf env home cwd true)).flatten
        ++ (rw_specs.map (mountArgsOf env home cwd false)).flatten
    ∧ res.2 = firstSome (ro_specs.map (mountDestOf env home cwd true)
        ++ rw_specs.map (mountDestOf env home cwd false))
    ∧ ∀ spec b, is_ssh_url spec = true → prepare_ssh_mount env spec b = none →
        mountArgsOf env home cwd b spec = [] ∧ mountDestOf env home cwd b spec = none := by
  rw [get_volume_args] at h
  cases h1 : mountLoop env home cwd true ro_specs [] none with
  | none =>
    rw [h1] at h
    simp only [Option.bind_eq_bind, Option.none_bind] at h
    exact absurd h (by simp)
  | some r1 =>
    rw [h1] at h
    simp only [Option.bind_eq_bind, Option.some_bind] at h
    have hr1 := mountLoop_spec env home cwd true ro_specs [] none r1 h1
    have hr2 := mountLoop_spec env home cwd false rw_specs r1.1 r1.2 res h
    refine ⟨?_, ?_, ?_⟩
    · rw [hr2.1, hr1.1]
      simp [List.append_assoc]
    · rw [hr2.2, hr1.2, firstSome_append]
      rfl
    · intro spec b hssh hprep
      constructor
      · simp [mountArgsOf, process_mount_spec, hssh, process_ssh_mount, hprep]
      · simp [mountDestOf, process_mount_spec, hssh, process_ssh_mount, hprep]

/-- C10, witness: with a provider that fails every remote mount, a read-only
remote spec contributes nothing and the working directory comes from the
read-write local mount that follows it. -/
theorem c10_witness :
    ((["-v", "/data:/root/data:rw"], some "/root/data") : List String × Option String).1
      = ((["h:p"].map (mountArgsOf (fun _ _ => none) "/home/u" "/cwd" true)).flatten
        ++ (["/data"].map (mountArgsOf (fun _ _ => none) "/home/u" "/cwd" false)).flatten)
    ∧ ((["-v", "/data:/root/data:rw"], some "/root/data") : List String × Option String).2
      = firstSome (["h:p"].map (mountDestOf (fun _ _ => none) "/home/u" "/cwd" true)
        ++ ["/data"].map (mountDestOf (fun _ _ => none) "/home/u" "/cwd" false))
    ∧ (mountArgsOf (fun _ _ => none) "/home/u" "/cwd" true "h:p" = []
        ∧ mountDestOf (fun _ _ => none) "/home/u" "/cwd" true "h:p" = none) :=
  ⟨(c10_failed_remote_mount_skipped (fun _ _ => none) "/home/u" "/cwd"
      ["h:p"] ["/data"] (["-v", "/data:/root/data:rw"], some "/root/data") (by decide)).1,
    (c10_failed_remote_mount_skipped (fun _ _ => none) "/home/u" "/cwd"
      ["h:p"] ["/data"] (["-v", "/data:/root/data:rw"], some "/root/data") (by decide)).2.1,
    (c10_failed_remote_mount_skipped (fun _ _ => none) "/home/u" "/cwd"
      ["h:p"] ["/data"] (["-v", "/data:/root/data:rw"], some "/root/data") (by decide)).2.2
      "h:p" true (by decide) (by decide)⟩

end Box
